import Mathlib

/-!
Verification of the migration-data aggregation engine
(`src/data/scripts/generate_migration_variations.py`).

The pandas pipeline is shallowly embedded: the enriched record store is a
`List FlowRecord`; group-by-sum aggregations become filtered sums over the
record list; the outer join of `generate_net_flows` becomes an enumeration of
the deduplicated union of forward and swapped keys; pandas `rank`,
`rolling(w).mean()`, `shift(1)` and `np.polyfit(·, ·, 1)` are given their
documented closed-form meanings over exact rationals.
-/

/-- One enriched record of the migration record store: a raw flow row
(`country_from`, `country_to`, `migration_month`, `num_migrants`) after
`load_migration_data` has parsed the month and derived `year` and `month`. -/
structure FlowRecord where
  country_from : String
  country_to : String
  migration_month : String
  num_migrants : Int
  year : Int
  month : Nat
deriving DecidableEq, Inhabited

/-- Sum of `num_migrants` over the records of one (origin, destination, year)
group: the pandas `groupby(['country_from','country_to','year']).sum()` cell. -/
def sumFlows (records : List FlowRecord) (f t : String) (y : Int) : Int :=
  ((records.filter (fun r =>
    r.country_from == f && r.country_to == t && r.year == y)).map
      (fun r => r.num_migrants)).sum

/-- One output row of `generate_net_flows`. -/
structure NetRow where
  country_from : String
  country_to : String
  year : Int
  net_flow : Int
  gross_flow : Int
deriving DecidableEq, Inhabited

/-- Key set of the outer join in `generate_net_flows`: the union of the
outbound group keys and the inbound (role-swapped) group keys, deduplicated. -/
def netKeys (records : List FlowRecord) : List (String × String × Int) :=
  ((records.map (fun r => (r.country_from, r.country_to, r.year))) ++
    (records.map (fun r => (r.country_to, r.country_from, r.year)))).dedup

/-- Embedding of `generate_net_flows` (lines 305-323): outbound sums merged
outer with role-swapped inbound sums, missing side filled with 0 (a sum over
an empty group is 0), then `net_flow = in - out`, `gross_flow = in + out`.
For key `(f, t, y)` the inbound cell is the sum of flows `t -> f`. -/
def generate_net_flows (records : List FlowRecord) : List NetRow :=
  (netKeys records).map (fun k =>
    { country_from := k.1
      country_to := k.2.1
      year := k.2.2
      net_flow := sumFlows records k.2.1 k.1 k.2.2 - sumFlows records k.1 k.2.1 k.2.2
      gross_flow := sumFlows records k.2.1 k.1 k.2.2 + sumFlows records k.1 k.2.1 k.2.2 })

/-- The two flow rows of the spec's worked example:
`(CC,XX,"2020-01",100)` and `(XX,CC,"2020-01",40)`, enriched. -/
def exampleRecords : List FlowRecord :=
  [{ country_from := "CC", country_to := "XX", migration_month := "2020-01"
     num_migrants := 100, year := 2020, month := 1 },
   { country_from := "XX", country_to := "CC", migration_month := "2020-01"
     num_migrants := 40, year := 2020, month := 1 }]

/-- Claim C1 (counterexample): on the spec's example rows, the net-flows output
has no row for year 2020 and pair (origin CC, destination XX) with
`net_flow = 60`; the row that exists there carries `net_flow = -60` (the code
computes inbound-minus-outbound, and for the (CC,XX) row the inbound side is
the XX->CC flow 40 while the outbound side is the CC->XX flow 100). -/
theorem netFlows_example_counterexample :
    ¬ ∃ row ∈ generate_net_flows exampleRecords,
        row.country_from = "CC" ∧ row.country_to = "XX" ∧ row.year = 2020 ∧
        row.net_flow = 60 := by
  decide

/-- Claim C1 (amended): on the spec's example rows, the net-flows row for year
2020 and pair (origin CC, destination XX) has `net_flow = -60` and
`gross_flow = 140`; the reverse pair (origin XX, destination CC) carries
`net_flow = 60` and `gross_flow = 140`. -/
theorem netFlows_example_amended :
    (generate_net_flows exampleRecords).filter
        (fun row => row.country_from == "CC" && row.country_to == "XX" &&
          row.year == 2020) =
      [{ country_from := "CC", country_to := "XX", year := 2020
         net_flow := -60, gross_flow := 140 }] ∧
    (generate_net_flows exampleRecords).filter
        (fun row => row.country_from == "XX" && row.country_to == "CC" &&
          row.year == 2020) =
      [{ country_from := "XX", country_to := "CC", year := 2020
         net_flow := 60, gross_flow := 140 }] := by
  constructor <;> decide

/-- Helper: a predicate holding exactly at one member of a duplicate-free list
is counted once. -/
lemma countP_eq_one_of_unique {α : Type} (p : α → Bool) (a : α) :
    ∀ (l : List α), l.Nodup → a ∈ l → (∀ x ∈ l, p x = true ↔ x = a) →
      l.countP p = 1 := by
  intro l
  induction l with
  | nil => intro _ ha _; cases ha
  | cons b tl ih =>
    intro hl ha hp
    obtain ⟨hb, htl⟩ := List.nodup_cons.mp hl
    rcases List.mem_cons.mp ha with hab | hatl
    · have pb : p b = true := (hp b (List.mem_cons_self b tl)).mpr hab.symm
      rw [List.countP_cons, pb, if_pos rfl]
      have : tl.countP p = 0 := by
        rw [List.countP_eq_zero]
        intro x hx hpx
        have : x = a := (hp x (List.mem_cons_of_mem b hx)).mp hpx
        exact hb (hab ▸ this ▸ hx)
      omega
    · have pb : p b = false := by
        by_contra hpb
        have : b = a := (hp b (List.mem_cons_self b tl)).mp (by
          cases hpbv : p b with
          | true => rfl
          | false => exact absurd hpbv hpb)
        exact hb (this ▸ hatl)
      rw [List.countP_cons, pb, if_neg (by simp)]
      exact ih htl hatl (fun x hx => hp x (List.mem_cons_of_mem b hx))

/-- Claim C2: for every (origin, destination, year) key carried by a forward
or a reverse flow, the net-flows output has exactly one row for the key; its
`net_flow` is the inbound sum (roles swapped) minus the outbound sum and its
`gross_flow` is their sum, a side with no observations summing to 0. -/
theorem generate_net_flows_spec (records : List FlowRecord) (f t : String) (y : Int)
    (h : (∃ r ∈ records, r.country_from = f ∧ r.country_to = t ∧ r.year = y) ∨
         (∃ r ∈ records, r.country_from = t ∧ r.country_to = f ∧ r.year = y)) :
    (generate_net_flows records).countP
        (fun row => row.country_from == f && row.country_to == t && row.year == y) = 1 ∧
    ∀ row ∈ generate_net_flows records,
      row.country_from = f → row.country_to = t → row.year = y →
        row.net_flow = sumFlows records t f y - sumFlows records f t y ∧
        row.gross_flow = sumFlows records t f y + sumFlows records f t y := by
  have hnodup : (netKeys records).Nodup := List.nodup_dedup _
  have hkey : (f, t, y) ∈ netKeys records := by
    unfold netKeys
    rw [List.mem_dedup, List.mem_append]
    rcases h with ⟨r, hr, h1, h2, h3⟩ | ⟨r, hr, h1, h2, h3⟩
    · exact Or.inl (List.mem_map.mpr ⟨r, hr, by rw [h1, h2, h3]⟩)
    · exact Or.inr (List.mem_map.mpr ⟨r, hr, by rw [h1, h2, h3]⟩)
  constructor
  · unfold generate_net_flows
    rw [List.countP_map]
    apply countP_eq_one_of_unique _ (f, t, y) _ hnodup hkey
    intro k _
    obtain ⟨k1, k2, k3⟩ := k
    simp [Function.comp, Prod.ext_iff, and_assoc]
  · intro row hrow h1 h2 h3
    obtain ⟨k, hk, rfl⟩ := List.mem_map.mp hrow
    obtain ⟨k1, k2, k3⟩ := k
    simp only at h1 h2 h3
    rw [h1, h2, h3]
    exact ⟨rfl, rfl⟩

/-- Claim C2 (witness): instantiation on the example store at key
(CC, XX, 2020). -/
theorem generate_net_flows_spec_witness :
    ((∃ r ∈ exampleRecords,
        r.country_from = "CC" ∧ r.country_to = "XX" ∧ r.year = 2020) ∨
      (∃ r ∈ exampleRecords,
        r.country_from = "XX" ∧ r.country_to = "CC" ∧ r.year = 2020)) ∧
    ((generate_net_flows exampleRecords).countP
        (fun row => row.country_from == "CC" && row.country_to == "XX" &&
          row.year == 2020) = 1 ∧
      ∀ row ∈ generate_net_flows exampleRecords,
        row.country_from = "CC" → row.country_to = "XX" → row.year = 2020 →
          row.net_flow = sumFlows exampleRecords "XX" "CC" 2020 -
              sumFlows exampleRecords "CC" "XX" 2020 ∧
          row.gross_flow = sumFlows exampleRecords "XX" "CC" 2020 +
              sumFlows exampleRecords "CC" "XX" 2020) :=
  ⟨by decide, generate_net_flows_spec exampleRecords "CC" "XX" 2020 (by decide)⟩

/-- Claim C10: the net-flows output is antisymmetric: each row (A, B, year) has
a companion row (B, A, year) with opposite `net_flow` and equal `gross_flow`. -/
theorem generate_net_flows_antisymm (records : List FlowRecord) (row : NetRow)
    (h : row ∈ generate_net_flows records) :
    ∃ row2 ∈ generate_net_flows records,
      row2.country_from = row.country_to ∧ row2.country_to = row.country_from ∧
      row2.year = row.year ∧ row2.net_flow = -row.net_flow ∧
      row2.gross_flow = row.gross_flow := by
  obtain ⟨k, hk, rfl⟩ := List.mem_map.mp h
  obtain ⟨k1, k2, k3⟩ := k
  have hk2 : (k2, k1, k3) ∈ netKeys records := by
    unfold netKeys at hk ⊢
    rw [List.mem_dedup, List.mem_append] at hk ⊢
    rcases hk with hk | hk
    · obtain ⟨r, hr, he⟩ := List.mem_map.mp hk
      simp only [Prod.ext_iff] at he
      exact Or.inr (List.mem_map.mpr ⟨r, hr, by
        rw [he.1, he.2.1, he.2.2]⟩)
    · obtain ⟨r, hr, he⟩ := List.mem_map.mp hk
      simp only [Prod.ext_iff] at he
      exact Or.inl (List.mem_map.mpr ⟨r, hr, by
        rw [he.1, he.2.1, he.2.2]⟩)
  refine ⟨_, List.mem_map.mpr ⟨(k2, k1, k3), hk2, rfl⟩, rfl, rfl, rfl, ?_, ?_⟩
  · show sumFlows records k1 k2 k3 - sumFlows records k2 k1 k3 =
      -(sumFlows records k2 k1 k3 - sumFlows records k1 k2 k3)
    ring
  · show sumFlows records k1 k2 k3 + sumFlows records k2 k1 k3 =
      sumFlows records k2 k1 k3 + sumFlows records k1 k2 k3
    ring

/-- Claim C10 (witness): instantiation at the (CC, XX, 2020) row of the
example store. -/
theorem generate_net_flows_antisymm_witness :
    (({ country_from := "CC", country_to := "XX", year := 2020
        net_flow := -60, gross_flow := 140 } : NetRow) ∈
      generate_net_flows exampleRecords) ∧
    (∃ row2 ∈ generate_net_flows exampleRecords,
      row2.country_from = "XX" ∧ row2.country_to = "CC" ∧ row2.year = 2020 ∧
      row2.net_flow = 60 ∧ row2.gross_flow = 140) :=
  ⟨by decide,
    generate_net_flows_antisymm exampleRecords
      { country_from := "CC", country_to := "XX", year := 2020
        net_flow := -60, gross_flow := 140 } (by decide)⟩

/-- Embedding of `generate_country_to_country` (lines 98-104): a pure
projection of the enriched store onto
(`country_from`, `country_to`, `migration_month`, `num_migrants`). -/
def generate_country_to_country (records : List FlowRecord) :
    List (String × String × String × Int) :=
  records.map (fun r =>
    (r.country_from, r.country_to, r.migration_month, r.num_migrants))

/-- Claim C7: the country-to-country output has exactly one row per enriched
record — its row count equals the record count, and the row at every position
is the projection of the record at that position (no dropping, no summing). -/
theorem generate_country_to_country_spec (records : List FlowRecord) (i : Nat) :
    (generate_country_to_country records).length = records.length ∧
    (generate_country_to_country records).getD i ("", "", "", 0) =
      ((records.getD i default).country_from,
        (records.getD i default).country_to,
        (records.getD i default).migration_month,
        (records.getD i default).num_migrants) := by
  constructor
  · exact List.length_map _ _
  · simp only [generate_country_to_country, List.getD_eq_getElem?_getD,
      List.getElem?_map]
    cases records[i]? <;> rfl

/-- One row of the M49 classification table. Cells are `Option String`:
`none` stands for a missing value (pandas turns blank CSV fields into NaN,
so a present cell is never the empty string). -/
structure M49Row where
  iso2 : Option String
  regionCode : Option String
  regionName : Option String
  subregionCode : Option String
  subregionName : Option String
  intermediateCode : Option String
  intermediateName : Option String
deriving DecidableEq, Inhabited

/-- Python-dict lookup over a chronological assignment list: the value of the
last assignment to the key, if any. -/
def dictGet (d : List (String × Option String)) (k : String) :
    Option (Option String) :=
  (d.reverse.find? (fun p => p.1 == k)).map (fun p => p.2)

/-- The code-to-name assignments performed by `load_regional_mappings`
(lines 31-65) for one level of the hierarchy: rows with a missing country
code are skipped entirely, and a row assigns `nameF row` to `codeF row`
whenever the code cell is present (even when the name cell is missing). -/
def assignmentsOf (rows : List M49Row) (codeF nameF : M49Row → Option String) :
    List (String × Option String) :=
  rows.filterMap (fun row =>
    if row.iso2.isSome then (codeF row).map (fun c => (c, nameF row)) else none)

/-- The `region_names` dictionary of `load_regional_mappings`. -/
def region_assignments (rows : List M49Row) : List (String × Option String) :=
  assignmentsOf rows (fun r => r.regionCode) (fun r => r.regionName)

/-- The `subregion_names` dictionary of `load_regional_mappings`. -/
def subregion_assignments (rows : List M49Row) : List (String × Option String) :=
  assignmentsOf rows (fun r => r.subregionCode) (fun r => r.subregionName)

/-- The `intermediate_names` dictionary of `load_regional_mappings`. -/
def intermediate_assignments (rows : List M49Row) : List (String × Option String) :=
  assignmentsOf rows (fun r => r.intermediateCode) (fun r => r.intermediateName)

/-- The name lookup used by every aggregator:
`names.get(code, f"<KindLabel>_{code}")` — the stored cell when the code has
an entry, else the synthesized fallback label. -/
def nameFor (d : List (String × Option String)) (label code : String) :
    Option String :=
  match dictGet d code with
  | some v => v
  | none => some (label ++ "_" ++ code)

/-- A classification row with a region code but a missing region name. -/
def m49RowUnnamedRegion : List M49Row :=
  [{ iso2 := some "CC", regionCode := some "2", regionName := none
     subregionCode := some "21", subregionName := some "Sub21"
     intermediateCode := none, intermediateName := none }]

/-- Claim C8 (counterexample): when a classification row carries region code
"2" with a missing region name, the names dictionary holds the missing marker
for code "2", so `nameFor` returns the missing marker — neither a recorded
human-readable name nor the synthesized fallback label "Region_2". -/
theorem nameFor_counterexample :
    dictGet (region_assignments m49RowUnnamedRegion) "2" = some none ∧
    nameFor (region_assignments m49RowUnnamedRegion) "Region" "2" = none ∧
    (none : Option String) ≠ some "Region_2" := by
  refine ⟨by decide, by decide, by decide⟩

/-- Helper: a successful dictionary lookup returns an entry of the list. -/
lemma dictGet_mem (d : List (String × Option String)) (k : String)
    (v : Option String) (h : dictGet d k = some v) : (k, v) ∈ d := by
  unfold dictGet at h
  obtain ⟨p, hp, hv⟩ := Option.map_eq_some'.mp h
  have hmem : p ∈ d.reverse := List.mem_of_find?_eq_some hp
  have hkey : p.1 = k := by
    have := List.find?_some hp
    exact beq_iff_eq.mp this
  rw [List.mem_reverse] at hmem
  have : p = (k, v) := by
    obtain ⟨p1, p2⟩ := p
    simp only at hkey hv
    rw [hkey, hv]
  exact this ▸ hmem

/-- Helper: every entry of an assignment list comes from a table row whose
code cell is present, and carries that row's name cell as its value. -/
lemma mem_assignmentsOf (rows : List M49Row) (codeF nameF : M49Row → Option String)
    (c : String) (v : Option String) (h : (c, v) ∈ assignmentsOf rows codeF nameF) :
    ∃ r ∈ rows, codeF r = some c ∧ nameF r = v := by
  unfold assignmentsOf at h
  obtain ⟨r, hr, he⟩ := List.mem_filterMap.mp h
  by_cases hiso : r.iso2.isSome
  · rw [if_pos hiso] at he
    obtain ⟨c', hc', hcv⟩ := Option.map_eq_some'.mp he
    obtain ⟨he1, he2⟩ := Prod.mk.injEq .. ▸ hcv
    exact ⟨r, hr, by rw [hc', he1], he2⟩
  · rw [if_neg hiso] at he
    cases he

/-- Claim C8 (amended): for every hierarchy level's name dictionary, `nameFor`
returns the recorded name when a name was recorded for the code, the fallback
label `"<KindLabel>_<code>"` when the code has no entry at all, but the
missing-name marker when the code was entered from a row with a blank name
cell; and — since a present CSV cell is never the empty string — `nameFor`
never returns the empty string, for any code. -/
theorem nameFor_amended (rows : List M49Row) (d : List (String × Option String))
    (label code : String)
    (hd : d = region_assignments rows ∨ d = subregion_assignments rows ∨
      d = intermediate_assignments rows)
    (hnames : ∀ r ∈ rows, r.regionName ≠ some "" ∧ r.subregionName ≠ some "" ∧
      r.intermediateName ≠ some "") :
    (∀ n : String, dictGet d code = some (some n) → nameFor d label code = some n) ∧
    (dictGet d code = none → nameFor d label code = some (label ++ "_" ++ code)) ∧
    (dictGet d code = some none → nameFor d label code = none) ∧
    nameFor d label code ≠ some "" := by
  refine ⟨?_, ?_, ?_, ?_⟩
  · intro n hn; unfold nameFor; rw [hn]
  · intro hn; unfold nameFor; rw [hn]
  · intro hn; unfold nameFor; rw [hn]
  · unfold nameFor
    cases hget : dictGet d code with
    | none =>
      intro hc
      have hlen := congrArg String.length (Option.some.injEq .. ▸ hc :
        label ++ "_" ++ code = "")
      rw [String.length_append, String.length_append] at hlen
      have h1 : ("_" : String).length = 1 := rfl
      have h0 : ("" : String).length = 0 := rfl
      omega
    | some v =>
      cases v with
      | none => simp
      | some n =>
        simp only [ne_eq, Option.some.injEq]
        intro hc
        have hmem := dictGet_mem d code (some n) hget
        rcases hd with rfl | rfl | rfl
        · obtain ⟨r, hr, _, hv⟩ := mem_assignmentsOf rows _ _ _ _ hmem
          exact (hnames r hr).1 (by rw [hv, hc])
        · obtain ⟨r, hr, _, hv⟩ := mem_assignmentsOf rows _ _ _ _ hmem
          exact (hnames r hr).2.1 (by rw [hv, hc])
        · obtain ⟨r, hr, _, hv⟩ := mem_assignmentsOf rows _ _ _ _ hmem
          exact (hnames r hr).2.2 (by rw [hv, hc])

/-- The classification row of the spec's worked example:
`(CC, 2, "Region2", 21, "Sub21")`. -/
def exampleM49 : List M49Row :=
  [{ iso2 := some "CC", regionCode := some "2", regionName := some "Region2"
     subregionCode := some "21", subregionName := some "Sub21"
     intermediateCode := none, intermediateName := none }]

/-- Claim C8 (witness): instantiation on the example classification row at
the region dictionary and code "2". -/
theorem nameFor_amended_witness :
    (region_assignments exampleM49 = region_assignments exampleM49 ∨
      region_assignments exampleM49 = subregion_assignments exampleM49 ∨
      region_assignments exampleM49 = intermediate_assignments exampleM49) ∧
    (∀ r ∈ exampleM49, r.regionName ≠ some "" ∧ r.subregionName ≠ some "" ∧
      r.intermediateName ≠ some "") ∧
    ((∀ n : String, dictGet (region_assignments exampleM49) "2" = some (some n) →
        nameFor (region_assignments exampleM49) "Region" "2" = some n) ∧
      (dictGet (region_assignments exampleM49) "2" = none →
        nameFor (region_assignments exampleM49) "Region" "2" =
          some ("Region" ++ "_" ++ "2")) ∧
      (dictGet (region_assignments exampleM49) "2" = some none →
        nameFor (region_assignments exampleM49) "Region" "2" = none) ∧
      nameFor (region_assignments exampleM49) "Region" "2" ≠ some "") :=
  ⟨Or.inl rfl, by decide,
    nameFor_amended exampleM49 (region_assignments exampleM49) "Region" "2"
      (Or.inl rfl) (by decide)⟩

/-- Numeric value of a decimal digit character. -/
def digitVal (c : Char) : Nat := c.toNat - 48

/-- Strict `YYYY-MM` month parser: four digits, a dash, two digits spelling a
month between 01 and 12. This is the expected month format named by the spec. -/
def parseYYYYMM (s : String) : Option (Int × Nat) :=
  match s.toList with
  | [a, b, c, d, '-', e, f] =>
    let y : Nat := 1000 * digitVal a + 100 * digitVal b + 10 * digitVal c + digitVal d
    let m : Nat := 10 * digitVal e + digitVal f
    if a.isDigit && b.isDigit && c.isDigit && d.isDigit && e.isDigit && f.isDigit
        && decide (1 ≤ m) && decide (m ≤ 12) then
      some ((y : Int), m)
    else none
  | _ => none

/-- Strict `YYYY-MM-DD` date parser: four digits, dash, two digits spelling a
month 01-12, dash, two digits spelling a day 01-31. -/
def parseYYYYMMDD (s : String) : Option (Int × Nat × Nat) :=
  match s.toList with
  | [a, b, c, d, '-', e, f, '-', g, h] =>
    let y : Nat := 1000 * digitVal a + 100 * digitVal b + 10 * digitVal c + digitVal d
    let m : Nat := 10 * digitVal e + digitVal f
    let dd : Nat := 10 * digitVal g + digitVal h
    if a.isDigit && b.isDigit && c.isDigit && d.isDigit && e.isDigit && f.isDigit
        && g.isDigit && h.isDigit && decide (1 ≤ m) && decide (m ≤ 12)
        && decide (1 ≤ dd) && decide (dd ≤ 31) then
      some ((y : Int), m, dd)
    else none
  | _ => none

/-- Strict `YYYY-MM-01` parser: a full date whose day part is exactly 01. -/
def parseYYYYMM01 (s : String) : Option (Int × Nat) :=
  match parseYYYYMMDD s with
  | some (y, m, d) => if d = 1 then some (y, m) else none
  | none => none

/-- Model of `pandas.to_datetime` on a single value, restricted to the ISO
forms that occur here: a `YYYY-MM` value parses to the first of the month and
a full `YYYY-MM-DD` value parses to that very day (pandas accepts both; it
raises only on values it cannot parse at all). -/
def to_datetime (s : String) : Option (Int × Nat × Nat) :=
  match parseYYYYMM s with
  | some (y, m) => some (y, m, 1)
  | none => parseYYYYMMDD s

/-- One raw row of the flow table, before loading. -/
structure RawRow where
  country_from : String
  country_to : String
  migration_month : String
  num_migrants : Int
deriving DecidableEq, Inhabited

/-- Embedding of `load_migration_data` (lines 67-78): every month value goes
through `pd.to_datetime`; an unparseable value raises, aborting the whole
record store build; otherwise each record is enriched with its year and
month number. -/
def load_migration_data : List RawRow → Except String (List FlowRecord)
  | [] => Except.ok []
  | r :: rs =>
    match to_datetime r.migration_month with
    | none => Except.error "DateParseError"
    | some (y, m, _) =>
      match load_migration_data rs with
      | Except.error e => Except.error e
      | Except.ok tl =>
        Except.ok ({ country_from := r.country_from, country_to := r.country_to
                     migration_month := r.migration_month
                     num_migrants := r.num_migrants, year := y, month := m } :: tl)

/-- Helper: a successful strict `YYYY-MM` parse means the string has exactly
seven characters. -/
lemma parseYYYYMM_length (s : String) (p : Int × Nat)
    (h : parseYYYYMM s = some p) : s.toList.length = 7 := by
  unfold parseYYYYMM at h
  split at h
  · rename_i a b c d e f hs
    rw [hs]
    rfl
  · cases h

/-- Helper: a successful strict `YYYY-MM-DD` parse means the string has
exactly ten characters. -/
lemma parseYYYYMMDD_length (s : String) (p : Int × Nat × Nat)
    (h : parseYYYYMMDD s = some p) : s.toList.length = 10 := by
  unfold parseYYYYMMDD at h
  split at h
  · rename_i a b c d e f g hd hs
    rw [hs]
    rfl
  · cases h

/-- A raw table whose month value is a parseable date that is not of the form
`YYYY-MM`, nor of the form `YYYY-MM-01`. -/
def badDateRows : List RawRow :=
  [{ country_from := "CC", country_to := "XX"
     migration_month := "2020-01-15", num_migrants := 5 }]

/-- Claim C9 (counterexample): the month value "2020-01-15" cannot be parsed
as `YYYY-MM` nor as `YYYY-MM-01`, yet the record store load does not fail:
`pd.to_datetime` parses it as January 15, 2020, and the build succeeds. -/
theorem load_dateparse_counterexample :
    parseYYYYMM "2020-01-15" = none ∧
    parseYYYYMM01 "2020-01-15" = none ∧
    load_migration_data badDateRows =
      Except.ok [{ country_from := "CC", country_to := "XX"
                   migration_month := "2020-01-15", num_migrants := 5
                   year := 2020, month := 1 }] := by
  refine ⟨by decide, by decide, by rfl⟩

/-- Claim C9 (amended): the record store load fails — with `DateParseError`,
aborting the build — exactly when some month value is rejected by the
datetime parser; every strict `YYYY-MM` and `YYYY-MM-01` value is accepted,
but other parseable dates (such as a `YYYY-MM-DD` with another day) are
accepted as well rather than causing a failure. -/
theorem load_dateparse_amended :
    (∀ rows : List RawRow,
      (∃ e, load_migration_data rows = Except.error e) ↔
        ∃ r ∈ rows, to_datetime r.migration_month = none) ∧
    (∀ (s : String) (y : Int) (m : Nat),
      parseYYYYMM s = some (y, m) → to_datetime s = some (y, m, 1)) ∧
    (∀ (s : String) (y : Int) (m : Nat),
      parseYYYYMM01 s = some (y, m) → to_datetime s = some (y, m, 1)) := by
  refine ⟨?_, ?_, ?_⟩
  · intro rows
    induction rows with
    | nil => simp [load_migration_data]
    | cons r rs ih =>
      cases hr : to_datetime r.migration_month with
      | none =>
        simp only [load_migration_data, hr]
        constructor
        · intro _; exact ⟨r, List.mem_cons_self r rs, hr⟩
        · intro _; exact ⟨"DateParseError", rfl⟩
      | some ymd =>
        obtain ⟨y, m, d⟩ := ymd
        cases hload : load_migration_data rs with
        | error e =>
          simp only [load_migration_data, hr, hload]
          constructor
          · intro _
            obtain ⟨r2, hr2, hr2n⟩ := ih.mp ⟨e, hload⟩
            exact ⟨r2, List.mem_cons_of_mem r hr2, hr2n⟩
          · intro _; exact ⟨e, rfl⟩
        | ok tl =>
          simp only [load_migration_data, hr, hload]
          constructor
          · rintro ⟨e, he⟩; cases he
          · rintro ⟨r2, hr2, hr2n⟩
            rcases List.mem_cons.mp hr2 with rfl | hr2tl
            · rw [hr] at hr2n; cases hr2n
            · obtain ⟨e, he⟩ := ih.mpr ⟨r2, hr2tl, hr2n⟩
              rw [hload] at he
              cases he
  · intro s y m h
    unfold to_datetime
    rw [h]
  · intro s y m h
    unfold parseYYYYMM01 at h
    split at h
    · rename_i y2 m2 d2 hdd
      split at h
      · rename_i hd1
        cases h
        cases hp : parseYYYYMM s with
        | some p =>
          have h7 := parseYYYYMM_length s p hp
          have h10 := parseYYYYMMDD_length s _ hdd
          omega
        | none =>
          unfold to_datetime
          rw [hp, hdd, hd1]
      · cases h
    · cases h

/-- Claim C9 (witness): instantiation on a strict `YYYY-MM` value. -/
theorem load_dateparse_amended_witness :
    parseYYYYMM "2020-01" = some (2020, 1) ∧
    to_datetime "2020-01" = some (2020, 1, 1) :=
  ⟨by decide, load_dateparse_amended.2.1 "2020-01" 2020 1 (by decide)⟩

/-- The thirteen file paths returned by `generate_all_variations`
(lines 367-409), in generation order: each `generate_*` call returns exactly
one path, which the run collects and reports. -/
def reportedArtifacts : List String :=
  ["flows_country_to_country_monthly.json",
   "flows_region_to_country_monthly.json",
   "flows_country_to_region_monthly.json",
   "flows_region_to_region_monthly.json",
   "flows_subregion_to_subregion_monthly.json",
   "flows_country_to_country_quarterly.json",
   "flows_country_to_country_annual.json",
   "flows_seasonal_patterns_country.json",
   "flows_rolling_averages_top100.json",
   "flows_gross_annual_country.json",
   "flows_net_annual_country.json",
   "flows_corridor_rankings_annual.json",
   "flows_growth_rates_annual.json"]

/-- The JSON files actually written by a complete run, in write order,
as a function of the loaded state: `generate_subregional_clustering`
(lines 171-212) additionally writes the intermediate-region file when the
`intermediate_names` dictionary is non-empty; `generate_annual_totals`
(lines 227-241) always writes a second, region-level annual file; and
`generate_rolling_averages` (lines 257-291) writes its file only when some
top corridor has at least 6 observations. -/
def writtenArtifacts (m49rows : List M49Row)
    (topCorridors : List ((String × String) × List Int)) : List String :=
  ["flows_country_to_country_monthly.json",
   "flows_region_to_country_monthly.json",
   "flows_country_to_region_monthly.json",
   "flows_region_to_region_monthly.json",
   "flows_subregion_to_subregion_monthly.json"] ++
  (if (intermediate_assignments m49rows).isEmpty then []
   else ["flows_intermediate_to_intermediate_monthly.json"]) ++
  ["flows_country_to_country_quarterly.json",
   "flows_country_to_country_annual.json",
   "flows_region_to_region_annual.json",
   "flows_seasonal_patterns_country.json"] ++
  (if topCorridors.any (fun c => 6 ≤ c.2.length) then
    ["flows_rolling_averages_top100.json"]
   else []) ++
  ["flows_gross_annual_country.json",
   "flows_net_annual_country.json",
   "flows_corridor_rankings_annual.json",
   "flows_growth_rates_annual.json"]

/-- A classification table carrying an intermediate region, and a top
corridor with six observations — both well-formed inputs. -/
def m49WithIntermediate : List M49Row :=
  [{ iso2 := some "CC", regionCode := some "2", regionName := some "Region2"
     subregionCode := some "21", subregionName := some "Sub21"
     intermediateCode := some "211", intermediateName := some "Inter211" }]

/-- A single top corridor with six monthly observations. -/
def corridorsSixObs : List ((String × String) × List Int) :=
  [(("CC", "XX"), [10, 20, 30, 40, 50, 60])]

/-- Claim C3 (counterexample): on a well-formed input whose classification
table has an intermediate region and whose top corridors include one with at
least 6 observations, a complete run writes 15 JSON artifacts, not 13. -/
theorem artifacts_count_counterexample :
    (writtenArtifacts m49WithIntermediate corridorsSixObs).length = 15 ∧
    (15 : Nat) ≠ 13 := by
  refine ⟨by decide, by decide⟩

/-- Claim C3 (amended): a complete run on well-formed inputs reports exactly
13 generated artifact paths, one per operation, but writes 13 to 15 JSON
files: 13 always, plus the intermediate-region spatial file when the
classification table yields any intermediate-region name entry, plus the
rolling-averages file when some top corridor has at least 6 observations
(the annual-totals operation writes two of the 13: a country-level and a
region-level file, while the rolling file is missing when no corridor
qualifies). -/
theorem artifacts_count_amended (m49rows : List M49Row)
    (topCorridors : List ((String × String) × List Int)) :
    reportedArtifacts.length = 13 ∧
    (writtenArtifacts m49rows topCorridors).length =
      13 + (if (intermediate_assignments m49rows).isEmpty then 0 else 1) +
        (if topCorridors.any (fun c => 6 ≤ c.2.length) then 1 else 0) := by
  constructor
  · rfl
  · unfold writtenArtifacts
    cases (intermediate_assignments m49rows).isEmpty <;>
      cases topCorridors.any (fun c => 6 ≤ c.2.length) <;> simp

/-- Helper: the element at a position below `n` of a map over `List.range n`. -/
lemma getD_map_range {α : Type} (n : Nat) (f : Nat → α) (i : Nat) (d : α)
    (hi : i < n) : ((List.range n).map f).getD i d = f i := by
  rw [List.getD_eq_getElem?_getD, List.getElem?_map, List.getElem?_range hi]
  rfl

/-- One output row of `generate_growth_rates` for a corridor. -/
structure GrowthRow where
  year : Int
  num_migrants : Int
  growth_rate : Option Rat
  growth_velocity : Option Rat
deriving DecidableEq, Inhabited

/-- The growth rate at position `i` of a corridor's year-sorted annual series
(lines 353-355): `shift(1)` supplies the previous row's total; a missing
previous row, or a previous total of exactly 0 (`replace(0, np.nan)`), gives
a null rate, never an infinity. -/
def growthRateAt (series : List (Int × Int)) (i : Nat) : Option Rat :=
  if i = 0 then none
  else
    let prev := (series.getD (i - 1) (0, 0)).2
    if prev = 0 then none
    else some ((((series.getD i (0, 0)).2 : Rat) - (prev : Rat)) / (prev : Rat) * 100)

/-- The growth velocity at position `i` (lines 358-359): difference of the
rate and the shifted rate, null when either side is null. -/
def growthVelocityAt (series : List (Int × Int)) (i : Nat) : Option Rat :=
  match growthRateAt series i, growthRateAt series (i - 1) with
  | some g, some pg => some (g - pg)
  | _, _ => none

/-- All rows of one corridor's growth computation, before the final filter:
one row per (year, annual total) entry of the sorted series. -/
def growthSeries (series : List (Int × Int)) : List GrowthRow :=
  (List.range series.length).map (fun i =>
    { year := (series.getD i (0, 0)).1
      num_migrants := (series.getD i (0, 0)).2
      growth_rate := growthRateAt series i
      growth_velocity := growthVelocityAt series i })

/-- Embedding of `generate_growth_rates` (lines 344-365) for one corridor:
the `dropna(subset=['growth_rate'])` keeps exactly the rows with a defined
growth rate. -/
def generate_growth_rates (series : List (Int × Int)) : List GrowthRow :=
  (growthSeries series).filter (fun r => r.growth_rate.isSome)

/-- Claim C5: in a corridor's growth-rates output (the series is the
corridor's annual totals sorted by year), the rate at position `i` equals
(current - previous) / previous x 100 of the annual totals, is null — never
infinite — when the previous total is exactly 0 or there is no previous year,
a row is in the output exactly when its growth rate is defined, and in
particular the row at `i` is kept whenever its rate is defined, even when its
velocity is null. -/
theorem generate_growth_rates_spec (series : List (Int × Int))
    (_hsorted : series.Pairwise (fun a b => a.1 < b.1)) (i : Nat)
    (hi : i < series.length) :
    (growthRateAt series i =
      if i = 0 then none
      else if (series.getD (i - 1) (0, 0)).2 = 0 then none
      else some ((((series.getD i (0, 0)).2 : Rat) -
          ((series.getD (i - 1) (0, 0)).2 : Rat)) /
        ((series.getD (i - 1) (0, 0)).2 : Rat) * 100)) ∧
    (∀ r : GrowthRow, r ∈ generate_growth_rates series ↔
      r ∈ growthSeries series ∧ r.growth_rate.isSome = true) ∧
    ((growthSeries series).getD i default ∈ generate_growth_rates series ↔
      (growthRateAt series i).isSome = true) := by
  refine ⟨rfl, ?_, ?_⟩
  · intro r
    simp [generate_growth_rates, List.mem_filter]
  · have hrow : (growthSeries series).getD i default =
        { year := (series.getD i (0, 0)).1
          num_migrants := (series.getD i (0, 0)).2
          growth_rate := growthRateAt series i
          growth_velocity := growthVelocityAt series i } := by
      unfold growthSeries
      exact getD_map_range series.length _ i default hi
    have hmem : (growthSeries series).getD i default ∈ growthSeries series := by
      rw [hrow]
      exact List.mem_map.mpr ⟨i, List.mem_range.mpr hi, rfl⟩
    rw [generate_growth_rates, List.mem_filter]
    constructor
    · intro h; rw [hrow] at h; exact h.2
    · intro h
      refine ⟨hmem, ?_⟩
      rw [hrow]
      exact h

/-- A corridor's annual series with a zero first total: (2019, 0), (2020, 50),
(2021, 75). -/
def exampleSeries : List (Int × Int) := [(2019, 0), (2020, 50), (2021, 75)]

/-- Claim C5 (witness): instantiation at position 2 of the example series —
the previous total is 50, so the rate is defined (50%) and the row is kept
even though its velocity is null (position 1 had a zero previous total). -/
theorem generate_growth_rates_spec_witness :
    exampleSeries.Pairwise (fun a b => a.1 < b.1) ∧ 2 < exampleSeries.length ∧
    ((growthSeries exampleSeries).getD 2 default ∈
        generate_growth_rates exampleSeries ↔
      (growthRateAt exampleSeries 2).isSome = true) ∧
    growthRateAt exampleSeries 1 = none ∧
    growthVelocityAt exampleSeries 2 = none ∧
    (growthRateAt exampleSeries 2).isSome = true :=
  ⟨by decide, by decide,
    (generate_growth_rates_spec exampleSeries (by decide) 2 (by decide)).2.2,
    by rfl, by rfl, by rfl⟩

/-- One output row of `generate_rolling_averages` for a corridor record. -/
structure RollRow where
  num_migrants : Int
  rolling_3m : Option Rat
  rolling_6m : Option Rat
  trend_slope : Option Rat
deriving DecidableEq, Inhabited

/-- The trailing `w`-point moving average ending at position `i` of a
corridor's chronologically sorted counts — pandas `rolling(w).mean()`, null
until `w` points exist (the first `w - 1` positions). -/
def windowMean (w : Nat) (xs : List Int) (i : Nat) : Option Rat :=
  if w ≤ i + 1 then
    some ((((xs.drop (i + 1 - w)).take w).map (fun v => (v : Rat))).sum / (w : Rat))
  else none

/-- Model of `np.polyfit(x, y, 1)[0]` for `x = 0, 1, ..., n-1`: the
closed-form ordinary least-squares slope
`(n * sum xy - sum x * sum y) / (n * sum x^2 - (sum x)^2)`. -/
def np_polyfit_slope (ys : List Int) : Rat :=
  let n : Rat := (ys.length : Nat)
  let idx : List Rat := (List.range ys.length).map (fun i => ((i : Nat) : Rat))
  let yr : List Rat := ys.map (fun v => (v : Rat))
  (n * ((idx.zip yr).map (fun p => p.1 * p.2)).sum - idx.sum * yr.sum) /
    (n * (idx.map (fun x => x * x)).sum - idx.sum * idx.sum)

/-- The corridor-constant trend slope (lines 275-282): the least-squares
slope over the most recent 12 observations when the corridor has at least 12,
null otherwise. -/
def trendSlope (xs : List Int) : Option Rat :=
  if 12 ≤ xs.length then some (np_polyfit_slope (xs.drop (xs.length - 12)))
  else none

/-- The emitted rows of one qualifying corridor, in chronological order. -/
def corridorRows (xs : List Int) : List RollRow :=
  (List.range xs.length).map (fun i =>
    { num_migrants := xs.getD i 0
      rolling_3m := windowMean 3 xs i
      rolling_6m := windowMean 6 xs i
      trend_slope := trendSlope xs })

/-- Embedding of `generate_rolling_averages` (lines 257-291), parametrized by
the already-selected top corridors (each with its chronologically sorted
counts): a corridor contributes rows only when it has at least 6 monthly
observations. -/
def generate_rolling_averages
    (corridors : List ((String × String) × List Int)) :
    List ((String × String) × List RollRow) :=
  corridors.filterMap (fun c =>
    if 6 ≤ c.2.length then some (c.1, corridorRows c.2) else none)

/-- Helper: in a list of pairs with duplicate-free keys, two members with the
same key are the same pair. -/
lemma eq_of_nodup_keys {α β : Type} :
    ∀ (l : List (α × β)), (l.map Prod.fst).Nodup →
      ∀ p q : α × β, p ∈ l → q ∈ l → p.1 = q.1 → p = q := by
  intro l
  induction l with
  | nil => intro _ p q hp; cases hp
  | cons a tl ih =>
    intro hl p q hp hq h
    rw [List.map_cons, List.nodup_cons] at hl
    obtain ⟨ha, htl⟩ := hl
    rcases List.mem_cons.mp hp with rfl | hp2
    · rcases List.mem_cons.mp hq with rfl | hq2
      · rfl
      · rw [h] at ha
        exact absurd (List.mem_map_of_mem Prod.fst hq2) ha
    · rcases List.mem_cons.mp hq with rfl | hq2
      · rw [← h] at ha
        exact absurd (List.mem_map_of_mem Prod.fst hp2) ha
      · exact ih htl p q hp2 hq2 h

/-- Claim C4: among the selected top corridors (with duplicate-free keys), a
corridor appears in the rolling-averages output iff it has at least 6
observations; in its chronologically sorted rows, the 3-month rolling average
at 0-based position `i` is non-null iff `i >= 2` and the 6-month one iff
`i >= 5`; `trend_slope` is non-null iff the corridor has at least 12
observations, and then equals the ordinary least-squares slope of the counts
against a 0-based time index over the most recent 12 observations. -/
theorem generate_rolling_averages_spec
    (corridors : List ((String × String) × List Int))
    (hkeys : (corridors.map Prod.fst).Nodup)
    (k : String × String) (xs : List Int)
    (hmem : (k, xs) ∈ corridors) :
    ((∃ rows, (k, rows) ∈ generate_rolling_averages corridors) ↔
      6 ≤ xs.length) ∧
    (∀ i, i < xs.length →
      (((corridorRows xs).getD i default).rolling_3m ≠ none ↔ 2 ≤ i) ∧
      (((corridorRows xs).getD i default).rolling_6m ≠ none ↔ 5 ≤ i) ∧
      (((corridorRows xs).getD i default).trend_slope ≠ none ↔ 12 ≤ xs.length) ∧
      (12 ≤ xs.length →
        ((corridorRows xs).getD i default).trend_slope =
          some (np_polyfit_slope (xs.drop (xs.length - 12))))) := by
  constructor
  · constructor
    · rintro ⟨rows, hrows⟩
      obtain ⟨c, hc, he⟩ := List.mem_filterMap.mp hrows
      by_cases h6 : 6 ≤ c.2.length
      · rw [if_pos h6] at he
        have hc1 : c.1 = k := by
          injection he with h
          injection h with h1 h2
        have hceq : c = (k, xs) :=
          eq_of_nodup_keys corridors hkeys c (k, xs) hc hmem hc1
        rw [hceq] at h6
        exact h6
      · rw [if_neg h6] at he
        cases he
    · intro h6
      exact ⟨corridorRows xs,
        List.mem_filterMap.mpr ⟨(k, xs), hmem, by rw [if_pos h6]⟩⟩
  · intro i hi
    have hrow : (corridorRows xs).getD i default =
        { num_migrants := xs.getD i 0
          rolling_3m := windowMean 3 xs i
          rolling_6m := windowMean 6 xs i
          trend_slope := trendSlope xs } := by
      unfold corridorRows
      exact getD_map_range xs.length _ i default hi
    rw [hrow]
    refine ⟨?_, ?_, ?_, ?_⟩
    · show windowMean 3 xs i ≠ none ↔ 2 ≤ i
      have h3 : (windowMean 3 xs i ≠ none) ↔ 3 ≤ i + 1 := by
        unfold windowMean
        split
        · rename_i h; simp [h]
        · rename_i h; simp [h]
      rw [h3]
      omega
    · show windowMean 6 xs i ≠ none ↔ 5 ≤ i
      have h6 : (windowMean 6 xs i ≠ none) ↔ 6 ≤ i + 1 := by
        unfold windowMean
        split
        · rename_i h; simp [h]
        · rename_i h; simp [h]
      rw [h6]
      omega
    · show trendSlope xs ≠ none ↔ 12 ≤ xs.length
      unfold trendSlope
      split
      · rename_i h; simp [h]
      · rename_i h; simp [h]
    · intro h12
      show trendSlope xs = some (np_polyfit_slope (xs.drop (xs.length - 12)))
      unfold trendSlope
      rw [if_pos h12]

/-- A single selected top corridor with twelve observations. -/
def exampleCorridors : List ((String × String) × List Int) :=
  [(("CC", "XX"), [3, 1, 4, 1, 5, 9, 2, 6, 5, 3, 5, 8])]

/-- Claim C4 (witness): instantiation on a single 12-observation corridor,
which therefore appears in the output. -/
theorem generate_rolling_averages_spec_witness :
    (exampleCorridors.map Prod.fst).Nodup ∧
    (("CC", "XX"), [3, 1, 4, 1, 5, 9, 2, 6, 5, 3, 5, 8]) ∈ exampleCorridors ∧
    (∃ rows, (("CC", "XX"), rows) ∈ generate_rolling_averages exampleCorridors) :=
  ⟨by decide, by decide,
    ((generate_rolling_averages_spec exampleCorridors (by decide) ("CC", "XX")
        [3, 1, 4, 1, 5, 9, 2, 6, 5, 3, 5, 8] (by decide)).1).mpr (by decide)⟩

/-- The `groupby(['country_from','country_to','year']).sum()` table used by
`generate_corridor_rankings` (line 330): one entry per distinct key, carrying
the group's summed migrant count. -/
def annualTotals (records : List FlowRecord) :
    List ((String × String × Int) × Int) :=
  ((records.map (fun r => (r.country_from, r.country_to, r.year))).dedup).map
    (fun k => (k, sumFlows records k.1 k.2.1 k.2.2))

/-- One output row of `generate_corridor_rankings`. -/
structure RankRow where
  country_from : String
  country_to : String
  year : Int
  num_migrants : Int
  rank : Nat
  percentile : Rat
deriving DecidableEq, Inhabited

/-- pandas `rank(method='dense', ascending=False)` of a value within a column:
one more than the number of distinct strictly greater values. -/
def denseRankDesc (totals : List Int) (t : Int) : Nat :=
  1 + totals.dedup.countP (fun u => decide (t < u))

/-- pandas `rank(pct=False, method='average', ascending=True)` of a value
within a column: the count of strictly smaller entries plus half of
(ties + 1). -/
def avgRankAsc (totals : List Int) (t : Int) : Rat :=
  ((totals.countP (fun u => decide (u < t)) : Nat) : Rat) +
    (((totals.countP (fun u => decide (u = t)) : Nat) : Rat) + 1) / 2

/-- The annual totals of one year's corridors, in table order. -/
def yearTotalsList (records : List FlowRecord) (y : Int) : List Int :=
  ((annualTotals records).filter (fun kt => kt.1.2.2 == y)).map (fun kt => kt.2)

/-- One year's block of `generate_corridor_rankings` (lines 332-337): the
year's rows of the annual-totals table, each with its dense descending rank
and its average-rank percentile within that year. -/
def rankRowsForYear (records : List FlowRecord) (y : Int) : List RankRow :=
  ((annualTotals records).filter (fun kt => kt.1.2.2 == y)).map (fun kt =>
    { country_from := kt.1.1
      country_to := kt.1.2.1
      year := kt.1.2.2
      num_migrants := kt.2
      rank := denseRankDesc (yearTotalsList records y) kt.2
      percentile := avgRankAsc (yearTotalsList records y) kt.2 /
        ((yearTotalsList records y).length : Rat) * 100 })

/-- Embedding of `generate_corridor_rankings` (lines 325-342): the blocks of
all years present in the annual-totals table, concatenated. -/
def generate_corridor_rankings (records : List FlowRecord) : List RankRow :=
  (((annualTotals records).map (fun kt => kt.1.2.2)).dedup).flatMap
    (fun y => rankRowsForYear records y)

/-- Helper: what a membership in a year's ranking block yields. -/
lemma mem_rankRowsForYear (records : List FlowRecord) (y : Int) (r : RankRow)
    (h : r ∈ rankRowsForYear records y) :
    r.year = y ∧ r.num_migrants ∈ yearTotalsList records y ∧
    r.rank = denseRankDesc (yearTotalsList records y) r.num_migrants ∧
    r.percentile = avgRankAsc (yearTotalsList records y) r.num_migrants /
      ((yearTotalsList records y).length : Rat) * 100 := by
  unfold rankRowsForYear at h
  obtain ⟨kt, hkt, rfl⟩ := List.mem_map.mp h
  refine ⟨beq_iff_eq.mp (List.mem_filter.mp hkt).2, ?_, rfl, rfl⟩
  unfold yearTotalsList
  exact List.mem_map.mpr ⟨kt, hkt, rfl⟩

/-- Helper: every total of a year is carried by some row of that year's
ranking block. -/
lemma yearTotals_surj (records : List FlowRecord) (y : Int) (u : Int)
    (hu : u ∈ yearTotalsList records y) :
    ∃ r ∈ rankRowsForYear records y, r.num_migrants = u := by
  unfold yearTotalsList at hu
  obtain ⟨kt, hkt, rfl⟩ := List.mem_map.mp hu
  exact ⟨_, List.mem_map.mpr ⟨kt, hkt, rfl⟩, rfl⟩

/-- Helper: in a duplicate-free list, when `t1` is present, `t2 < t1`, and no
entry lies strictly between them, the entries above `t2` are exactly the
entries above `t1` together with `t1` itself. -/
lemma countP_lt_next (t1 t2 : Int) :
    ∀ (d : List Int), d.Nodup → t1 ∈ d → t2 < t1 →
      (∀ u ∈ d, t2 < u → t1 ≤ u) →
      d.countP (fun u => decide (t2 < u)) =
        d.countP (fun u => decide (t1 < u)) + 1 := by
  intro d
  induction d with
  | nil => intro _ h; cases h
  | cons a tl ih =>
    intro hnd hmem hlt hbet
    obtain ⟨ha, htl⟩ := List.nodup_cons.mp hnd
    rcases List.mem_cons.mp hmem with rfl | hmem2
    · have e2 : List.countP (fun u => decide (t2 < u)) (t1 :: tl) =
          List.countP (fun u => decide (t2 < u)) tl + 1 :=
        List.countP_cons_of_pos _ _ (by simpa using hlt)
      have e1 : List.countP (fun u => decide (t1 < u)) (t1 :: tl) =
          List.countP (fun u => decide (t1 < u)) tl :=
        List.countP_cons_of_neg _ _ (by simp)
      have ec : List.countP (fun u => decide (t2 < u)) tl =
          List.countP (fun u => decide (t1 < u)) tl := by
        apply List.countP_congr
        intro u hu
        have hne : u ≠ t1 := fun he => ha (he ▸ hu)
        have hiff : t2 < u ↔ t1 < u := by
          constructor
          · intro h2u
            exact lt_of_le_of_ne (hbet u (List.mem_cons_of_mem t1 hu) h2u)
              (Ne.symm hne)
          · intro h1u
            exact lt_trans hlt h1u
        simp [hiff]
      omega
    · have hne : a ≠ t1 := fun he => ha (he ▸ hmem2)
      have hrec := ih htl hmem2 hlt
        (fun u hu h2u => hbet u (List.mem_cons_of_mem a hu) h2u)
      by_cases hc : t2 < a
      · have h1a : t1 < a :=
          lt_of_le_of_ne (hbet a (List.mem_cons_self a tl) hc) (Ne.symm hne)
        have e2 : List.countP (fun u => decide (t2 < u)) (a :: tl) =
            List.countP (fun u => decide (t2 < u)) tl + 1 :=
          List.countP_cons_of_pos _ _ (by simpa using hc)
        have e1 : List.countP (fun u => decide (t1 < u)) (a :: tl) =
            List.countP (fun u => decide (t1 < u)) tl + 1 :=
          List.countP_cons_of_pos _ _ (by simpa using h1a)
        omega
      · have h1a : ¬ t1 < a := fun h1a => hc (lt_trans hlt h1a)
        have e2 : List.countP (fun u => decide (t2 < u)) (a :: tl) =
            List.countP (fun u => decide (t2 < u)) tl :=
          List.countP_cons_of_neg _ _ (by simpa using hc)
        have e1 : List.countP (fun u => decide (t1 < u)) (a :: tl) =
            List.countP (fun u => decide (t1 < u)) tl :=
          List.countP_cons_of_neg _ _ (by simpa using h1a)
        omega

/-- Helper: the dense descending rank of the next distinct lower total is one
more than the rank of the total above it. -/
lemma denseRankDesc_next (totals : List Int) (t1 t2 : Int) (h1 : t1 ∈ totals)
    (hlt : t2 < t1) (hbet : ∀ u ∈ totals, t2 < u → t1 ≤ u) :
    denseRankDesc totals t2 = denseRankDesc totals t1 + 1 := by
  unfold denseRankDesc
  have := countP_lt_next t1 t2 totals.dedup (List.nodup_dedup totals)
    (List.mem_dedup.mpr h1) hlt (fun u hu => hbet u (List.mem_dedup.mp hu))
  omega

/-- Claim C6: within each year of the corridor-rankings output, two corridors
with equal annual totals receive equal ranks; the next distinct lower total's
rank is exactly one greater than the tied rank (dense, descending, no skips);
and each row's percentile is its average ascending rank over the year's
corridor count, times 100. -/
theorem generate_corridor_rankings_spec (records : List FlowRecord)
    (r1 r2 : RankRow)
    (h1 : r1 ∈ generate_corridor_rankings records)
    (h2 : r2 ∈ generate_corridor_rankings records)
    (hy : r2.year = r1.year) :
    (r1.num_migrants = r2.num_migrants → r1.rank = r2.rank) ∧
    (r2.num_migrants < r1.num_migrants →
      (∀ r3 ∈ generate_corridor_rankings records, r3.year = r1.year →
        r3.num_migrants < r1.num_migrants →
          r3.num_migrants ≤ r2.num_migrants) →
      r2.rank = r1.rank + 1) ∧
    r1.percentile =
      avgRankAsc (yearTotalsList records r1.year) r1.num_migrants /
        ((yearTotalsList records r1.year).length : Rat) * 100 := by
  obtain ⟨y1, hy1, hr1⟩ := List.mem_flatMap.mp h1
  obtain ⟨y2, hy2, hr2⟩ := List.mem_flatMap.mp h2
  obtain ⟨hyear1, hmem1, hrank1, hpct1⟩ := mem_rankRowsForYear records y1 r1 hr1
  obtain ⟨hyear2, hmem2, hrank2, hpct2⟩ := mem_rankRowsForYear records y2 r2 hr2
  have hyy : y2 = y1 := by rw [← hyear2, ← hyear1, hy]
  subst hyy
  refine ⟨?_, ?_, ?_⟩
  · intro he
    rw [hrank1, hrank2, he]
  · intro hlt hbet
    rw [hrank1, hrank2]
    apply denseRankDesc_next (yearTotalsList records y2) r1.num_migrants
      r2.num_migrants hmem1 hlt
    intro u hu h2u
    obtain ⟨r3, hr3, hnum3⟩ := yearTotals_surj records y2 u hu
    have hr3gen : r3 ∈ generate_corridor_rankings records :=
      List.mem_flatMap.mpr ⟨y2, hy2, hr3⟩
    have hyear3 : r3.year = r1.year :=
      (mem_rankRowsForYear records y2 r3 hr3).1.trans hyear1.symm
    by_contra hnle
    have hult : u < r1.num_migrants := lt_of_not_le hnle
    have := hbet r3 hr3gen hyear3 (hnum3 ▸ hult)
    rw [hnum3] at this
    omega
  · rw [hyear1, hpct1]

/-- Three corridors in one year with annual totals 10, 10 and 5: a tie at the
top and one lower total. -/
def rankingRecords : List FlowRecord :=
  [{ country_from := "AA", country_to := "BB", migration_month := "2020-01"
     num_migrants := 10, year := 2020, month := 1 },
   { country_from := "CC", country_to := "DD", migration_month := "2020-01"
     num_migrants := 10, year := 2020, month := 1 },
   { country_from := "EE", country_to := "FF", migration_month := "2020-01"
     num_migrants := 5, year := 2020, month := 1 }]

/-- The ranking row of corridor (AA, BB) for 2020. -/
def rankRowA : RankRow :=
  { country_from := "AA", country_to := "BB", year := 2020, num_migrants := 10
    rank := denseRankDesc (yearTotalsList rankingRecords 2020) 10
    percentile := avgRankAsc (yearTotalsList rankingRecords 2020) 10 /
      ((yearTotalsList rankingRecords 2020).length : Rat) * 100 }

/-- The ranking row of corridor (EE, FF) for 2020. -/
def rankRowE : RankRow :=
  { country_from := "EE", country_to := "FF", year := 2020, num_migrants := 5
    rank := denseRankDesc (yearTotalsList rankingRecords 2020) 5
    percentile := avgRankAsc (yearTotalsList rankingRecords 2020) 5 /
      ((yearTotalsList rankingRecords 2020).length : Rat) * 100 }

/-- Claim C6 (witness): on the 10/10/5 store, the total-5 row's rank is one
more than the tied total-10 row's rank. -/
theorem generate_corridor_rankings_spec_witness :
    rankRowA ∈ generate_corridor_rankings rankingRecords ∧
    rankRowE ∈ generate_corridor_rankings rankingRecords ∧
    rankRowE.year = rankRowA.year ∧
    rankRowE.rank = rankRowA.rank + 1 := by
  have hA : rankRowA ∈ generate_corridor_rankings rankingRecords :=
    List.mem_flatMap.mpr ⟨2020, by decide,
      List.mem_map.mpr ⟨(("AA", "BB", 2020), 10), by decide, rfl⟩⟩
  have hE : rankRowE ∈ generate_corridor_rankings rankingRecords :=
    List.mem_flatMap.mpr ⟨2020, by decide,
      List.mem_map.mpr ⟨(("EE", "FF", 2020), 5), by decide, rfl⟩⟩
  refine ⟨hA, hE, rfl, ?_⟩
  exact (generate_corridor_rankings_spec rankingRecords rankRowA rankRowE
    hA hE rfl).2.1 (by decide) (by decide)
